import Mathlib

/-!
Shallow embedding of `src/agent/main.py` (Miss Fortune, a Polymarket
trading agent).  Python dictionaries are modelled as insertion-ordered
association lists of JSON values; `json.loads` / `json.dumps` are
modelled by an executable parser and printer mirroring CPython's `json`
module (compact separators `", "`/`": "`, or `indent=2` style).
Exceptions are modelled with `Except String`; the message text of a
modelled exception is a stand-in for CPython's message, never relied on
for anything but being a string.
-/

set_option maxHeartbeats 1000000

/-- A JSON value as produced by `json.loads`.  Numbers keep their source
numeral text: no tool in the module computes with a JSON number, so the
literal is the faithful carrier (it also round-trips through `dumps`). -/
inductive Json where
  | null
  | bool (b : Bool)
  | num (lit : String)
  | str (s : String)
  | arr (items : List Json)
  | obj (fields : List (String × Json))

/-- The opening-brace character, kept out of literals. -/
def lbrace : Char := Char.ofNat 123

/-- The closing-brace character, kept out of literals. -/
def rbrace : Char := Char.ofNat 125

/-- First binding of a key in an insertion-ordered dict. -/
def lookupField : List (String × Json) → String → Option Json
  | [], _ => none
  | (k', v) :: rest, k => if k' = k then some v else lookupField rest k

/-- Python `dict.get(k, d)`. -/
def dictGet (fs : List (String × Json)) (k : String) (d : Json) : Json :=
  (lookupField fs k).getD d

/-- Python `d[k] = v`: an existing key keeps its position but takes the
new value; a fresh key is appended. -/
def insertField : List (String × Json) → String → Json → List (String × Json)
  | [], k, v => [(k, v)]
  | (k', v') :: rest, k, v =>
    if k' = k then (k', v) :: rest else (k', v') :: insertField rest k v

/-- Re-binds duplicate keys the way a Python dict literal built in parse
order does (first position, last value). -/
def dedupFields (fs : List (String × Json)) : List (String × Json) :=
  fs.foldl (fun acc kv => insertField acc kv.1 kv.2) []

/-- Truthiness of a JSON numeral: zero iff every mantissa digit is 0.
`NaN`/`Infinity` (accepted by CPython's `json`) are truthy. -/
def numLiteralTruthy (lit : String) : Bool :=
  if lit = "NaN" ∨ lit = "Infinity" ∨ lit = "-Infinity" then true
  else (lit.toList.takeWhile (fun c => c ≠ 'e' ∧ c ≠ 'E')).any
    (fun c => '1' ≤ c ∧ c ≤ '9')

/-- Python truthiness of a decoded JSON value. -/
def Json.truthy : Json → Bool
  | .null => false
  | .bool b => b
  | .num lit => numLiteralTruthy lit
  | .str s => !s.isEmpty
  | .arr items => !items.isEmpty
  | .obj fields => !fields.isEmpty

/-- Four lowercase hex digits, as CPython's `\uXXXX` escapes print. -/
def hex4 (n : Nat) : String :=
  let dig := fun (d : Nat) =>
    if d < 10 then Char.ofNat (48 + d) else Char.ofNat (87 + d)
  String.mk [dig ((n / 4096) % 16), dig ((n / 256) % 16), dig ((n / 16) % 16), dig (n % 16)]

/-- The `\uXXXX` escape of a code point, as a surrogate pair when non-BMP. -/
def uEscape (n : Nat) : String :=
  if n < 65536 then "\\u" ++ hex4 n
  else
    let m := n - 65536
    "\\u" ++ hex4 (55296 + m / 1024) ++ "\\u" ++ hex4 (56320 + m % 1024)

/-- One character of a JSON string under `ensure_ascii=True`: escape the
quote, the backslash and everything outside printable ASCII. -/
def escChar (c : Char) : String :=
  if c = '"' then "\\\""
  else if c = '\\' then "\\\\"
  else if c = '\n' then "\\n"
  else if c = '\r' then "\\r"
  else if c = '\t' then "\\t"
  else if c = Char.ofNat 8 then "\\b"
  else if c = Char.ofNat 12 then "\\f"
  else if c.toNat < 32 ∨ 126 < c.toNat then uEscape c.toNat
  else String.singleton c

/-- A JSON string literal as `json.dumps` prints it. -/
def escapeJsonString (s : String) : String :=
  "\"" ++ String.join (s.toList.map escChar) ++ "\""

/-- Concatenation with a separator between elements. -/
def joinSep (sep : String) : List String → String
  | [] => ""
  | [x] => x
  | x :: xs => x ++ sep ++ joinSep sep xs

/-- Emits `indent`-many spaces per level, as `json.dumps(..., indent=n)` pads. -/
def padLevel (indentWidth lvl : Nat) : String :=
  String.pushn "" ' ' (indentWidth * lvl)

mutual

/-- Renders as `json.dumps` does: `indentWidth = none` is the compact default
(separators `", "` and `": "`); `some n` is the `indent=n` style
(newline-separated items, key separator `": "`). -/
def dumpsVal (indentWidth : Option Nat) (lvl : Nat) : Json → String
  | .null => "null"
  | .bool true => "true"
  | .bool false => "false"
  | .num lit => lit
  | .str s => escapeJsonString s
  | .arr items =>
    match items with
    | [] => "[]"
    | _ =>
      match indentWidth with
      | none => "[" ++ joinSep ", " (dumpsItems none 0 items) ++ "]"
      | some n =>
        "[\n" ++ padLevel n (lvl + 1)
          ++ joinSep (",\n" ++ padLevel n (lvl + 1)) (dumpsItems (some n) (lvl + 1) items)
          ++ "\n" ++ padLevel n lvl ++ "]"
  | .obj fields =>
    match fields with
    | [] => "\x7b\x7d"
    | _ =>
      match indentWidth with
      | none => "\x7b" ++ joinSep ", " (dumpsFields none 0 fields) ++ "\x7d"
      | some n =>
        "\x7b\n" ++ padLevel n (lvl + 1)
          ++ joinSep (",\n" ++ padLevel n (lvl + 1)) (dumpsFields (some n) (lvl + 1) fields)
          ++ "\n" ++ padLevel n lvl ++ "\x7d"

/-- Renders each array item. -/
def dumpsItems (indentWidth : Option Nat) (lvl : Nat) : List Json → List String
  | [] => []
  | x :: xs => dumpsVal indentWidth lvl x :: dumpsItems indentWidth lvl xs

/-- Renders each `"key": value` member. -/
def dumpsFields (indentWidth : Option Nat) (lvl : Nat) : List (String × Json) → List String
  | [] => []
  | (k, v) :: fs =>
    (escapeJsonString k ++ ": " ++ dumpsVal indentWidth lvl v) :: dumpsFields indentWidth lvl fs

end

/-- Models `json.dumps(v)` / `json.dumps(v, indent=n)`. -/
def Json.dumps (indentWidth : Option Nat) (v : Json) : String :=
  dumpsVal indentWidth 0 v

/-- Value of a hex digit. -/
def hexVal (c : Char) : Option Nat :=
  if '0' ≤ c ∧ c ≤ '9' then some (c.toNat - 48)
  else if 'a' ≤ c ∧ c ≤ 'f' then some (c.toNat - 87)
  else if 'A' ≤ c ∧ c ≤ 'F' then some (c.toNat - 55)
  else none

/-- Single-character string escapes recognised by `json.loads`. -/
def escDecode (c : Char) : Option Char :=
  if c = '"' then some '"'
  else if c = '\\' then some '\\'
  else if c = '/' then some '/'
  else if c = 'b' then some (Char.ofNat 8)
  else if c = 'f' then some (Char.ofNat 12)
  else if c = 'n' then some '\n'
  else if c = 'r' then some '\r'
  else if c = 't' then some '\t'
  else none

/-- Body of a JSON string literal, after the opening quote; returns the
decoded text and the input after the closing quote. -/
def parseStringBody : List Char → Option (String × List Char)
  | [] => none
  | '"' :: rest => some ("", rest)
  | '\\' :: 'u' :: a :: b :: c :: d :: rest =>
    match hexVal a, hexVal b, hexVal c, hexVal d with
    | some ha, some hb, some hc, some hd =>
      (parseStringBody rest).map
        (fun p => (String.singleton (Char.ofNat (((ha * 16 + hb) * 16 + hc) * 16 + hd)) ++ p.1, p.2))
    | _, _, _, _ => none
  | '\\' :: e :: rest =>
    match escDecode e with
    | some ch => (parseStringBody rest).map (fun p => (String.singleton ch ++ p.1, p.2))
    | none => none
  | c :: rest => (parseStringBody rest).map (fun p => (String.singleton c ++ p.1, p.2))

/-- Longest digit run. -/
def digitsSpan (cs : List Char) : List Char × List Char :=
  cs.span (fun c => c.isDigit)

/-- Optional exponent part of a JSON number. -/
def parseExp (acc : String) (cs : List Char) : Option (String × List Char) :=
  match cs with
  | c :: r =>
    if c = 'e' ∨ c = 'E' then
      let (sgn, r2) : String × List Char :=
        match r with
        | '+' :: rr => ("+", rr)
        | '-' :: rr => ("-", rr)
        | _ => ("", r)
      let (ds, r3) := digitsSpan r2
      if ds.isEmpty then none
      else some (acc ++ String.singleton c ++ sgn ++ String.mk ds, r3)
    else some (acc, cs)
  | [] => some (acc, [])

/-- Optional fraction part of a JSON number, then the exponent. -/
def parseFrac (acc : String) (cs : List Char) : Option (String × List Char) :=
  match cs with
  | '.' :: r =>
    let (ds, r2) := digitsSpan r
    if ds.isEmpty then none else parseExp (acc ++ "." ++ String.mk ds) r2
  | _ => parseExp acc cs

/-- A JSON number (`-? (0 | [1-9][0-9]*) frac? exp?`), kept as its
literal text. -/
def parseNumber (cs : List Char) : Option (String × List Char) :=
  let (sign, cs1) : String × List Char :=
    match cs with
    | '-' :: r => ("-", r)
    | _ => ("", cs)
  match cs1 with
  | c :: r =>
    if c = '0' then parseFrac (sign ++ "0") r
    else if '1' ≤ c ∧ c ≤ '9' then
      let (ds, r2) := digitsSpan r
      parseFrac (sign ++ String.mk (c :: ds)) r2
    else none
  | [] => none

/-- JSON whitespace. -/
def skipWs : List Char → List Char
  | c :: cs => if c = ' ' ∨ c = '\t' ∨ c = '\n' ∨ c = '\r' then skipWs cs else c :: cs
  | [] => []

mutual

/-- One JSON value; the fuel bounds recursion depth and is spent once
per nested value, so twice the input length always suffices. -/
def parseVal : Nat → List Char → Option (Json × List Char)
  | 0, _ => none
  | Nat.succ f, cs =>
    match skipWs cs with
    | [] => none
    | 'n' :: 'u' :: 'l' :: 'l' :: r => some (.null, r)
    | 't' :: 'r' :: 'u' :: 'e' :: r => some (.bool true, r)
    | 'f' :: 'a' :: 'l' :: 's' :: 'e' :: r => some (.bool false, r)
    | 'N' :: 'a' :: 'N' :: r => some (.num "NaN", r)
    | 'I' :: 'n' :: 'f' :: 'i' :: 'n' :: 'i' :: 't' :: 'y' :: r => some (.num "Infinity", r)
    | '-' :: 'I' :: 'n' :: 'f' :: 'i' :: 'n' :: 'i' :: 't' :: 'y' :: r => some (.num "-Infinity", r)
    | '"' :: r => (parseStringBody r).map (fun p => (Json.str p.1, p.2))
    | '[' :: r =>
      match skipWs r with
      | ']' :: r2 => some (.arr [], r2)
      | r2 => (parseItems f r2).map (fun p => (Json.arr p.1, p.2))
    | c :: r =>
      if c = lbrace then
        match skipWs r with
        | c2 :: r2 =>
          if c2 = rbrace then some (.obj [], r2)
          else (parseMembers f (c2 :: r2)).map (fun p => (Json.obj (dedupFields p.1), p.2))
        | [] => none
      else (parseNumber (c :: r)).map (fun p => (Json.num p.1, p.2))

/-- Comma-separated array items up to the closing bracket. -/
def parseItems : Nat → List Char → Option (List Json × List Char)
  | 0, _ => none
  | Nat.succ f, cs =>
    match parseVal f cs with
    | none => none
    | some (v, r) =>
      match skipWs r with
      | ',' :: r2 => (parseItems f r2).map (fun p => (v :: p.1, p.2))
      | ']' :: r2 => some ([v], r2)
      | _ => none

/-- Comma-separated `"key": value` members up to the closing brace,
in source order (duplicates still present). -/
def parseMembers : Nat → List Char → Option (List (String × Json) × List Char)
  | 0, _ => none
  | Nat.succ f, cs =>
    match skipWs cs with
    | '"' :: r =>
      match parseStringBody r with
      | none => none
      | some (k, r2) =>
        match skipWs r2 with
        | ':' :: r3 =>
          match parseVal f r3 with
          | none => none
          | some (v, r4) =>
            match skipWs r4 with
            | ',' :: r5 => (parseMembers f r5).map (fun p => ((k, v) :: p.1, p.2))
            | c :: r5 => if c = rbrace then some ([(k, v)], r5) else none
            | [] => none
        | _ => none
    | _ => none

end

/-- Models `json.loads`: the whole input must be one JSON document (trailing
non-whitespace is the `Extra data` error). -/
def Json.parse (s : String) : Option Json :=
  match parseVal (2 * s.length + 4) s.toList with
  | some (v, rest) => if skipWs rest = [] then some v else none
  | none => none


/-- Outcome of a `requests.get`/`requests.post` call: a transport-level
failure, or a decoded response with its HTTP status. -/
inductive HttpResult where
  | netError (msg : String)
  | response (status : Nat) (body : Json)

/-- Models `resp.raise_for_status()` followed by `resp.json()`: raises on a
network failure or a 4xx/5xx status, otherwise yields the body. -/
def raiseForStatus : HttpResult → Except String Json
  | .netError m => .error m
  | .response st body => if 400 ≤ st then .error ("HTTP " ++ toString st) else .ok body

/-- Whether the upstream call failed (network error or non-2xx/3xx). -/
def HttpResult.isFailure : HttpResult → Bool
  | .netError _ => true
  | .response st _ => 400 ≤ st

/-- The exception message `str(e)` carried by a failed upstream call. -/
def HttpResult.failMsg : HttpResult → String
  | .netError m => m
  | .response st _ => "HTTP " ++ toString st

/-- Models `json.loads` applied to a field value: a non-string raises
`TypeError`, an undecodable string raises `JSONDecodeError`. -/
def pyLoads : Json → Except String Json
  | .str s =>
    match Json.parse s with
    | some v => .ok v
    | none => .error "json decode error"
  | _ => .error "TypeError: not a string"

/-- Calling `.get(...)` on something that is not a dict raises `AttributeError`. -/
def asObj : Json → Except String (List (String × Json))
  | .obj fs => .ok fs
  | _ => .error "AttributeError: no attribute get"

/-- Iterating market dicts out of something that is not a list raises. -/
def asArr : Json → Except String (List Json)
  | .arr items => .ok items
  | _ => .error "TypeError: not iterable"

/-- Python string slicing `s[:n]` (by code point). -/
def pyStrTake (s : String) (n : Nat) : String := String.mk (s.toList.take n)

/-- Models `description[:500]`: slices a string (or a list); any other type
raises `TypeError`. -/
def sliceDesc : Json → Except String Json
  | .str s => .ok (.str (pyStrTake s 500))
  | .arr items => .ok (.arr (items.take 500))
  | _ => .error "TypeError: unsliceable"

/-- The `json.dumps({"error": str(e)})` failure sentinel every tool's
`except` branch returns. -/
def errDump (msg : String) : String :=
  Json.dumps none (.obj [("error", .str msg)])

/-- The `try`/`except` around a tool body whose success value is dumped with
`indent=2`. -/
def renderTool : Except String Json → String
  | .ok v => Json.dumps (some 2) v
  | .error e => errDump e

/-- Python's `for` loop appending one projected entry per element,
aborting at the first raised exception. -/
def mapEntries (f : Json → Except String Json) : List Json → Except String (List Json)
  | [] => .ok []
  | x :: xs => do
    let y ← f x
    let ys ← mapEntries f xs
    .ok (y :: ys)

/-- Projection of one market inside `get_closing_soon_markets`. -/
def closingSoonEntry (mkt : Json) : Except String Json := do
  let fs ← asObj mkt
  let outs ← pyLoads (dictGet fs "outcomes" (.str "[]"))
  let prices ← pyLoads (dictGet fs "outcomePrices" (.str "[]"))
  .ok (.obj
    [("id", dictGet fs "id" (.str "")),
     ("question", dictGet fs "question" (.str "")),
     ("outcomes", outs),
     ("outcome_prices", prices),
     ("volume", dictGet fs "volume" (.str "0")),
     ("volume_24h", dictGet fs "volume24hr" (.str "0")),
     ("liquidity", dictGet fs "liquidity" (.str "0")),
     ("end_date", dictGet fs "endDate" (.str ""))])

/-- Query parameters `get_closing_soon_markets` sends to
`GAMMA_API/markets`: it asks the upstream for its own
most-actively-traded ordering. -/
def closingSoonRequestParams (limit : Nat) : List (String × Json) :=
  [("active", .bool true), ("closed", .bool false), ("limit", .num (toString limit)),
   ("order", .str "volume24hr"), ("ascending", .bool false)]

/-- Models `get_closing_soon_markets(limit)`: projects every upstream entry in
order (no date parsing, no filtering, no re-sorting) and truncates to
`limit`. -/
def get_closing_soon_markets (limit : Nat) (resp : HttpResult) : String :=
  renderTool (do
    let body ← raiseForStatus resp
    let all_markets ← asArr body
    let results ← mapEntries closingSoonEntry all_markets
    .ok (.arr (results.take limit)))

/-- Projection of one market inside `search_markets` (same fields as the
closing-soon scan minus `volume_24h`). -/
def searchEntry (mkt : Json) : Except String Json := do
  let fs ← asObj mkt
  let outs ← pyLoads (dictGet fs "outcomes" (.str "[]"))
  let prices ← pyLoads (dictGet fs "outcomePrices" (.str "[]"))
  .ok (.obj
    [("id", dictGet fs "id" (.str "")),
     ("question", dictGet fs "question" (.str "")),
     ("outcomes", outs),
     ("outcome_prices", prices),
     ("volume", dictGet fs "volume" (.str "0")),
     ("liquidity", dictGet fs "liquidity" (.str "0")),
     ("end_date", dictGet fs "endDate" (.str ""))])

/-- Models `event.get("markets", [])`, which must then be iterable. -/
def eventMarkets (event : Json) : Except String (List Json) := do
  let fs ← asObj event
  asArr (dictGet fs "markets" (.arr []))

/-- The nested `for event / for mkt` collection loop of `search_markets`. -/
def collectSearch : List Json → Except String (List Json)
  | [] => .ok []
  | e :: rest => do
    let ms ← eventMarkets e
    let projected ← mapEntries searchEntry ms
    let others ← collectSearch rest
    .ok (projected ++ others)

/-- Models `search_markets(query, limit)`: flattens every event's markets in
order and truncates to `limit`. -/
def search_markets (limit : Nat) (resp : HttpResult) : String :=
  renderTool (do
    let body ← raiseForStatus resp
    let events ← asArr body
    let results ← collectSearch events
    .ok (.arr (results.take limit)))

/-- Models `get_market_details(market_id)`: fixed allow-list projection of one
market, decoding the JSON-encoded string fields. -/
def get_market_details (resp : HttpResult) : String :=
  renderTool (do
    let body ← raiseForStatus resp
    let fs ← asObj body
    let desc ← sliceDesc (dictGet fs "description" (.str ""))
    let outs ← pyLoads (dictGet fs "outcomes" (.str "[]"))
    let prices ← pyLoads (dictGet fs "outcomePrices" (.str "[]"))
    let toks ← pyLoads (dictGet fs "clobTokenIds" (.str "[]"))
    .ok (.obj
      [("id", dictGet fs "id" (.str "")),
       ("question", dictGet fs "question" (.str "")),
       ("description", desc),
       ("outcomes", outs),
       ("outcome_prices", prices),
       ("volume", dictGet fs "volume" (.str "0")),
       ("liquidity", dictGet fs "liquidity" (.str "0")),
       ("end_date", dictGet fs "endDate" (.str "")),
       ("clob_token_ids", toks),
       ("neg_risk", dictGet fs "negRisk" (.bool false))]))

/-- Models `get_order_book(token_id)`: passes the upstream body through. -/
def get_order_book (resp : HttpResult) : String :=
  renderTool (raiseForStatus resp)

/-- Models `get_price_history(token_id)`: passes the upstream body through. -/
def get_price_history (resp : HttpResult) : String :=
  renderTool (raiseForStatus resp)

/-- One Exa search hit as the client library returns it (`title`, `url`
and `published_date` pass straight into the JSON result; `text` may be
`None`). -/
structure ExaSource where
  title : Json
  url : Json
  published_date : Json
  text : Option String

/-- Projection of one Exa result: `(r.text or "")[:1500]`. -/
def exaEntry (r : ExaSource) : Json :=
  .obj
    [("title", r.title),
     ("url", r.url),
     ("published_date", r.published_date),
     ("text", .str (pyStrTake (r.text.getD "") 1500))]

/-- Models `exa_research(query, num_results)`: gated on the Exa client being
configured, then one search call projected per result. -/
def exa_research (client : Option (String → Nat → Except String (List ExaSource)))
    (query : String) (num_results : Nat) : String :=
  match client with
  | none => errDump "Exa not configured. Set EXA_API_KEY."
  | some search =>
    match search query num_results with
    | .ok results => Json.dumps (some 2) (.arr (results.map exaEntry))
    | .error e => errDump e

/-- Models `int(s, 16)`: optional `0x`/`0X` prefix, at least one hex digit. -/
def hexToNat (s : String) : Except String Nat :=
  let cs :=
    match s.toList with
    | '0' :: 'x' :: rest => rest
    | '0' :: 'X' :: rest => rest
    | other => other
  if cs.isEmpty then .error "invalid hex literal"
  else
    cs.foldlM
      (fun acc c =>
        match hexVal c with
        | some d => Except.ok (acc * 16 + d)
        | none => Except.error "invalid hex literal")
      0

/-- Models `f"\x7bbalance:.2f\x7d"` for `balance = raw / 1e6`, modelled as exact
decimal rounding (round half to even at the cent); the module never
computes further with the formatted balance. -/
def formatUsdc (raw : Nat) : String :=
  let q := raw / 10000
  let r := raw % 10000
  let cents := if r > 5000 then q + 1 else if r < 5000 then q else q + q % 2
  let frac := cents % 100
  toString (cents / 100) ++ "." ++ (if frac < 10 then "0" else "") ++ toString frac

/-- Models `get_wallet_balance()`: short-circuits to a JSON object when no
private key is configured; otherwise derives the address, queries the
chain RPC, and formats the 6-decimal USDC balance.  The success path
dumps without `indent`. -/
def get_wallet_balance (pk : Option String)
    (deriveAddr : String → Except String String) (rpc : HttpResult) : String :=
  match pk with
  | none =>
    Json.dumps none
      (.obj [("balance", .str "0"), ("address", .str ""), ("error", .str "No wallet configured")])
  | some k =>
    if k = "" then
      Json.dumps none
        (.obj [("balance", .str "0"), ("address", .str ""), ("error", .str "No wallet configured")])
    else
      match (do
        let address ← deriveAddr k
        let body ← raiseForStatus rpc
        let fs ← asObj body
        let result ←
          match dictGet fs "result" (.str "0x0") with
          | .str s => Except.ok s
          | _ => Except.error "TypeError: int() argument"
        let balance_raw ← hexToNat result
        Except.ok (address, balance_raw)) with
      | .ok (address, balance_raw) =>
        Json.dumps none
          (.obj [("address", .str address), ("balance", .str (formatUsdc balance_raw))])
      | .error e => errDump e

/-- Models `update_watchlist(...)`: the tool body itself only acknowledges; the
state effect happens in the argument extractor. -/
def update_watchlist : String := "Watchlist updated successfully"

/-- The advisory string every Phase-2 tool returns when the trading
client is absent. -/
def tradingAdvisory : String := "Trading not configured. Set POLYMARKET_PRIVATE_KEY."

/-- Side constants of the order builder. -/
inductive Side where
  | BUY
  | SELL
deriving DecidableEq

/-- The order dict passed to `create_and_post_order`; `price` and `size`
are numeric arguments passed through verbatim, carried here as their
literal text. -/
structure OrderArgs where
  token_id : String
  price : String
  size : String
  side : Side

/-- The authenticated CLOB client, present only when
`POLYMARKET_PRIVATE_KEY` is set and initialization succeeded; each
method is one outbound authenticated call. -/
structure ClobClient where
  getPositions : Unit → Except String Json
  createAndPostOrder : OrderArgs → Except String Json
  cancel : String → Except String Json

/-- Models `get_positions()`. -/
def get_positions (client : Option ClobClient) : String :=
  match client with
  | none => tradingAdvisory
  | some c =>
    match c.getPositions () with
    | .ok positions => Json.dumps (some 2) positions
    | .error e => errDump e

/-- Models `str.upper()` (ASCII case mapping, which is all the module
compares against). -/
def pyUpper (s : String) : String := String.mk (s.toList.map Char.toUpper)

/-- The order `place_bet` builds: `BUY if side.upper() == "BUY" else
SELL`, with no validation of any argument. -/
def betOrder (token_id side price size : String) : OrderArgs :=
  { token_id := token_id, price := price, size := size,
    side := if pyUpper side = "BUY" then Side.BUY else Side.SELL }

/-- Models `place_bet(token_id, side, price, size)`. -/
def place_bet (client : Option ClobClient) (token_id side price size : String) : String :=
  match client with
  | none => tradingAdvisory
  | some c =>
    match c.createAndPostOrder (betOrder token_id side price size) with
    | .ok order => Json.dumps (some 2) (.obj [("status", .str "placed"), ("order", order)])
    | .error e => errDump e

/-- Models `cancel_order(order_id)`. -/
def cancel_order (client : Option ClobClient) (order_id : String) : String :=
  match client with
  | none => tradingAdvisory
  | some c =>
    match c.cancel order_id with
    | .ok result => Json.dumps (some 2) (.obj [("status", .str "cancelled"), ("result", result)])
    | .error e => errDump e

/-- f-string interpolation of a state value; the prompt only ever
receives strings here, other values are rendered as compact JSON. -/
def fString : Json → String
  | .str s => s
  | v => Json.dumps none v

/-- Models `build_market_prompt(input_data, user_message)`: renders the truthy
labeled sections in fixed order (watchlist, positions, balance, last
action) joined by blank lines, then the user request; with no section,
or no dict-shaped state, the bare user message. -/
def build_market_prompt (state : Option Json) (user_message : String) : String :=
  match state with
  | some (.obj fs) =>
    let parts : List String :=
      (if (dictGet fs "markets" .null).truthy then
        ["Current watchlist:\n" ++ Json.dumps (some 2) (dictGet fs "markets" .null)] else [])
      ++ (if (dictGet fs "positions" .null).truthy then
        ["Current positions:\n" ++ Json.dumps (some 2) (dictGet fs "positions" .null)] else [])
      ++ (if (dictGet fs "wallet_balance" .null).truthy then
        ["Wallet USDC balance: " ++ fString (dictGet fs "wallet_balance" .null)] else [])
      ++ (if (dictGet fs "last_action" .null).truthy then
        ["Last action: " ++ fString (dictGet fs "last_action" .null)] else [])
    if parts.isEmpty then user_message
    else joinSep "\n\n" parts ++ "\n\nUser request: " ++ user_message
  | _ => user_message

/-- The raw `context.tool_input` of the watchlist-update call: either a
string still needing `json.loads`, or an already-structured value. -/
inductive ToolArg where
  | pyStr (s : String)
  | pyVal (v : Json)

/-- Models `market_state_from_args(context)`: decodes a string input, accepts a
dict whose `markets` value is a list, builds the canonical state
(markets verbatim; `positions or []`; `last_action` defaulted to `""`;
`wallet_balance` only when truthy), and yields `none` — no update — on
a decode failure or any other shape. -/
def market_state_from_args (arg : ToolArg) : Option Json :=
  let decoded : Option Json :=
    match arg with
    | .pyStr s => Json.parse s
    | .pyVal v => some v
  match decoded with
  | none => none
  | some v =>
    match v with
    | .obj fs =>
      match dictGet fs "markets" (.arr []) with
      | .arr ms =>
        let posRaw := dictGet fs "positions" (.arr [])
        let positions := if posRaw.truthy then posRaw else .arr []
        let base : List (String × Json) :=
          [("markets", .arr ms), ("positions", positions),
           ("last_action", dictGet fs "last_action" (.str ""))]
        let wb := dictGet fs "wallet_balance" .null
        some (.obj (if wb.truthy then base ++ [("wallet_balance", wb)] else base))
      | _ => none
    | _ => none

/-- Modelled from the spec: the agent runtime applies the extractor's
result by whole-object replacement of the shared state, and treats a
`none` result as "state unchanged".  (The glue that does this lives in
the external `ag_ui_strands` runtime, outside this module; the spec's
lifecycle section fixes its contract.) -/
def applyWatchlistUpdate (prior : Json) (arg : ToolArg) : Json :=
  match market_state_from_args arg with
  | some s => s
  | none => prior

/-- The only argument shape the extractor accepts: a dict whose
`markets` value (defaulted to `[]`) is a list. -/
def recognizedShape : Json → Bool
  | .obj fs =>
    match dictGet fs "markets" (.arr []) with
    | .arr _ => true
    | _ => false
  | _ => false

section Helpers

theorem strAppendAssoc (a b c : String) : a ++ b ++ c = a ++ (b ++ c) :=
  String.append_assoc a b c

theorem strIsEmptyFalse (s : String) (h : s ≠ "") : s.isEmpty = false := by
  rw [Bool.eq_false_iff]
  intro he
  exact h ((String.isEmpty_iff s).mp he)

theorem listIsEmptyFalse {α : Type} (l : List α) (h : l ≠ []) : l.isEmpty = false := by
  cases l with
  | nil => exact absurd rfl h
  | cons x xs => rfl

theorem exceptBindOk {α β : Type} (x : α) (f : α → Except String β) :
    (Except.ok x >>= f) = f x := rfl

theorem exceptBindErr {α β : Type} (m : String) (f : α → Except String β) :
    ((Except.error m : Except String α) >>= f) = Except.error m := rfl

theorem raiseForStatus_failure (resp : HttpResult) (h : resp.isFailure = true) :
    raiseForStatus resp = .error resp.failMsg := by
  cases resp with
  | netError m => rfl
  | response st body =>
    simp only [HttpResult.isFailure, decide_eq_true_eq] at h
    simp [raiseForStatus, HttpResult.failMsg, h]

theorem mapEntries_ok_length (f : Json → Except String Json) (xs ys : List Json)
    (h : mapEntries f xs = .ok ys) : ys.length = xs.length := by
  induction xs generalizing ys with
  | nil =>
    simp only [mapEntries] at h
    cases h
    rfl
  | cons x xs ih =>
    simp only [mapEntries] at h
    cases hx : f x with
    | error e => rw [hx, exceptBindErr] at h; cases h
    | ok y =>
      rw [hx, exceptBindOk] at h
      cases hxs : mapEntries f xs with
      | error e => rw [hxs, exceptBindErr] at h; cases h
      | ok ys' =>
        rw [hxs, exceptBindOk] at h
        cases h
        simp [ih ys' hxs]

theorem mapEntries_ok_get (f : Json → Except String Json) (xs ys : List Json)
    (h : mapEntries f xs = .ok ys) :
    ∀ (i : Nat) (h1 : i < xs.length) (h2 : i < ys.length),
      f (xs.get ⟨i, h1⟩) = .ok (ys.get ⟨i, h2⟩) := by
  induction xs generalizing ys with
  | nil => intro i h1 h2; exact absurd h1 (Nat.not_lt_zero i)
  | cons x xs ih =>
    simp only [mapEntries] at h
    cases hx : f x with
    | error e => rw [hx, exceptBindErr] at h; cases h
    | ok y =>
      rw [hx, exceptBindOk] at h
      cases hxs : mapEntries f xs with
      | error e => rw [hxs, exceptBindErr] at h; cases h
      | ok ys' =>
        rw [hxs, exceptBindOk] at h
        cases h
        intro i h1 h2
        cases i with
        | zero => simpa using hx
        | succ j =>
          exact ih ys' hxs j (Nat.lt_of_succ_lt_succ h1) (Nat.lt_of_succ_lt_succ h2)

end Helpers

/-- Claim C5: for flat-convention arguments with markets, positions and
last_action, the extractor returns a state mapping whose three fields
carry those values verbatim, and which has no `wallet_balance` key. -/
theorem flat_args_verbatim_state (ms ps : List Json) (la : String) :
    market_state_from_args (.pyVal (.obj
      [("markets", Json.arr ms), ("positions", Json.arr ps), ("last_action", Json.str la)]))
    = some (.obj
      [("markets", Json.arr ms), ("positions", Json.arr ps), ("last_action", Json.str la)]) := by
  cases ps with
  | nil => rfl
  | cons p ps => rfl

/-- Claim C1 (counterexample): on nested-convention arguments, where the
`markets` key holds the object carrying markets/positions/last_action,
the extractor returns `none`, while the flat form of the same arguments
returns a state — the conventions are not equivalent. -/
theorem nested_convention_counterexample :
    market_state_from_args (.pyVal (.obj [("markets", .obj
      [("markets", Json.arr [Json.str "m"]), ("positions", Json.arr []),
       ("last_action", Json.str "y")])]))
      = none
    ∧ market_state_from_args (.pyVal (.obj
        [("markets", Json.arr [Json.str "m"]), ("positions", Json.arr []),
         ("last_action", Json.str "y")]))
      = some (.obj
        [("markets", Json.arr [Json.str "m"]), ("positions", Json.arr []),
         ("last_action", Json.str "y")]) :=
  ⟨rfl, rfl⟩

/-- Claim C1 (amended): whenever the `markets` key of the argument dict
holds an object (the nested calling convention) rather than a list, the
extractor returns `none` (no update); only the flat convention produces
a state. -/
theorem nested_markets_object_yields_no_update (fs ifs : List (String × Json))
    (h : lookupField fs "markets" = some (.obj ifs)) :
    market_state_from_args (.pyVal (.obj fs)) = none := by
  simp [market_state_from_args, dictGet, h]

/-- Claim C1 (amended) witness at the nested example from the spec. -/
theorem nested_markets_object_yields_no_update_witness :
    market_state_from_args (.pyVal (.obj [("markets", .obj
      [("markets", Json.arr []), ("positions", Json.arr []), ("last_action", Json.str "y")])]))
      = none :=
  nested_markets_object_yields_no_update _ _ rfl

/-- Claim C6: an argument string that does not JSON-decode, and a
decoded or structured argument of unrecognized shape (not a dict, or a
dict whose `markets` value is not a list), make the extractor return
the no-update sentinel `none` rather than throw. -/
theorem unparseable_or_unrecognized_no_update :
    (∀ s : String, Json.parse s = none → market_state_from_args (.pyStr s) = none)
    ∧ (∀ v : Json, recognizedShape v = false → market_state_from_args (.pyVal v) = none)
    ∧ (∀ (s : String) (v : Json), Json.parse s = some v → recognizedShape v = false →
        market_state_from_args (.pyStr s) = none) := by
  have shape : ∀ v : Json, recognizedShape v = false →
      (match v with
        | Json.obj fs =>
          match dictGet fs "markets" (.arr []) with
          | Json.arr ms =>
            let posRaw := dictGet fs "positions" (.arr [])
            let positions := if posRaw.truthy then posRaw else .arr []
            let base : List (String × Json) :=
              [("markets", Json.arr ms), ("positions", positions),
               ("last_action", dictGet fs "last_action" (.str ""))]
            let wb := dictGet fs "wallet_balance" Json.null
            some (Json.obj (if wb.truthy then base ++ [("wallet_balance", wb)] else base))
          | _ => none
        | _ => (none : Option Json)) = none := by
    intro v hv
    cases v with
    | obj fs =>
      simp only [recognizedShape] at hv
      cases hm : dictGet fs "markets" (.arr []) <;> simp_all
    | null => rfl
    | bool b => rfl
    | num lit => rfl
    | str s => rfl
    | arr items => rfl
  refine ⟨?_, ?_, ?_⟩
  · intro s h
    simp [market_state_from_args, h]
  · intro v hv
    simpa [market_state_from_args] using shape v hv
  · intro s v hp hv
    simpa [market_state_from_args, hp] using shape v hv

/-- Claim C6 witness: a non-JSON string and a structured non-dict both
yield no update. -/
theorem unparseable_or_unrecognized_no_update_witness :
    market_state_from_args (.pyStr "oops") = none
    ∧ market_state_from_args (.pyVal (Json.str "x")) = none :=
  ⟨unparseable_or_unrecognized_no_update.1 "oops" rfl,
   unparseable_or_unrecognized_no_update.2.1 (Json.str "x") rfl⟩

/-- Claim C9: the watchlist update is idempotent whole-object
replacement — applying the same arguments twice gives the same state as
once, and whenever the extractor produces an update the resulting state
is independent of (never merged with) the prior state. -/
theorem watchlist_replacement_idempotent (prior : Json) (arg : ToolArg) :
    applyWatchlistUpdate (applyWatchlistUpdate prior arg) arg = applyWatchlistUpdate prior arg
    ∧ (∀ prior2 : Json, market_state_from_args arg ≠ none →
        applyWatchlistUpdate prior arg = applyWatchlistUpdate prior2 arg) := by
  unfold applyWatchlistUpdate
  cases h : market_state_from_args arg with
  | none => exact ⟨rfl, fun prior2 hne => absurd rfl hne⟩
  | some s => exact ⟨rfl, fun prior2 _ => rfl⟩

/-- Claim C9 witness: two different prior states are replaced by the
same state under identical update arguments. -/
theorem watchlist_replacement_idempotent_witness :
    applyWatchlistUpdate (.obj [("markets", Json.arr [Json.str "old"])])
        (.pyVal (.obj [("markets", Json.arr [])]))
      = applyWatchlistUpdate (Json.str "other prior")
        (.pyVal (.obj [("markets", Json.arr [])])) :=
  (watchlist_replacement_idempotent _ _).2 _ (by
    intro h
    rw [show market_state_from_args (.pyVal (.obj [("markets", Json.arr [])]))
        = some (.obj [("markets", Json.arr []), ("positions", Json.arr []),
                      ("last_action", Json.str "")]) from rfl] at h
    exact Option.noConfusion h)

/-- Claim C7: the context renderer emits only the non-empty labeled
sections in the fixed order watchlist, positions, balance, last action,
joined by blank lines, followed by the user request; with only a
non-empty watchlist it produces exactly the "Current watchlist:"
section, a blank line, and "User request: ...", with no other
sections. -/
theorem prompt_renderer_sections (ms : List Json) (msg : String) (hms : ms ≠ []) :
    build_market_prompt (some (.obj [("markets", Json.arr ms)])) msg
      = "Current watchlist:\n" ++ Json.dumps (some 2) (Json.arr ms) ++ "\n\nUser request: " ++ msg
    ∧ ∀ (ps : List Json) (wb la : String), ps ≠ [] → wb ≠ "" → la ≠ "" →
        build_market_prompt (some (.obj
          [("markets", Json.arr ms), ("positions", Json.arr ps),
           ("wallet_balance", Json.str wb), ("last_action", Json.str la)])) msg
        = "Current watchlist:\n" ++ Json.dumps (some 2) (Json.arr ms)
          ++ "\n\n" ++ "Current positions:\n" ++ Json.dumps (some 2) (Json.arr ps)
          ++ "\n\n" ++ "Wallet USDC balance: " ++ wb
          ++ "\n\n" ++ "Last action: " ++ la
          ++ "\n\nUser request: " ++ msg := by
  have hms' : ms.isEmpty = false := listIsEmptyFalse ms hms
  constructor
  · simp [build_market_prompt, dictGet, lookupField, Json.truthy, hms', joinSep, Json.dumps,
      strAppendAssoc]
  · intro ps wb la hps hwb hla
    have hps' : ps.isEmpty = false := listIsEmptyFalse ps hps
    have hwb' : wb.isEmpty = false := strIsEmptyFalse wb hwb
    have hla' : la.isEmpty = false := strIsEmptyFalse la hla
    have m1 : ∀ x : String, "\n\n" ++ ("Current positions:\n" ++ x)
        = "\n\nCurrent positions:\n" ++ x := fun x => by rw [← strAppendAssoc]; rfl
    have m2 : ∀ x : String, "\n\n" ++ ("Wallet USDC balance: " ++ x)
        = "\n\nWallet USDC balance: " ++ x := fun x => by rw [← strAppendAssoc]; rfl
    have m3 : ∀ x : String, "\n\n" ++ ("Last action: " ++ x)
        = "\n\nLast action: " ++ x := fun x => by rw [← strAppendAssoc]; rfl
    simp [build_market_prompt, dictGet, lookupField, Json.truthy, hms', hps', hwb', hla',
      joinSep, fString, Json.dumps, strAppendAssoc, m1, m2, m3]

/-- Claim C7 witness at the spec's example: one watchlist entry and the
user message "find crypto bets". -/
theorem prompt_renderer_sections_witness :
    build_market_prompt (some (.obj [("markets", Json.arr [Json.obj [("id", Json.str "m1")]])]))
        "find crypto bets"
      = "Current watchlist:\n" ++ Json.dumps (some 2) (Json.arr [Json.obj [("id", Json.str "m1")]])
        ++ "\n\nUser request: " ++ "find crypto bets" :=
  (prompt_renderer_sections _ _ (by simp)).1

/-- Claim C4 (counterexample): with no trading credential,
`get_wallet_balance` does short-circuit, but it returns a JSON object
(`balance`/`address`/`error` keys) rather than the literal plain-text
advisory string the other gated tools return. -/
theorem wallet_balance_gate_counterexample :
    get_wallet_balance none (fun _ => Except.error "unused") (.netError "unused")
      = "\x7b\"balance\": \"0\", \"address\": \"\", \"error\": \"No wallet configured\"\x7d"
    ∧ get_wallet_balance none (fun _ => Except.error "unused") (.netError "unused")
      ≠ tradingAdvisory :=
  ⟨rfl, by decide⟩

/-- Claim C4 (amended): with no trading credential, `place_bet`,
`cancel_order` and `get_positions` return the literal advisory string,
and `get_wallet_balance` returns its fixed no-wallet JSON object; all
four short-circuit without consulting any transport (the wallet result
is independent of the address-derivation and RPC arguments, and the
other three take no transport at all when the client is absent). -/
theorem gated_tools_short_circuit :
    (∀ token_id side price size : String, place_bet none token_id side price size = tradingAdvisory)
    ∧ (∀ order_id : String, cancel_order none order_id = tradingAdvisory)
    ∧ get_positions none = tradingAdvisory
    ∧ (∀ (d : String → Except String String) (rpc : HttpResult),
        get_wallet_balance none d rpc
          = Json.dumps none (.obj [("balance", Json.str "0"), ("address", Json.str ""),
              ("error", Json.str "No wallet configured")]))
    ∧ (∀ (d d' : String → Except String String) (rpc rpc' : HttpResult),
        get_wallet_balance none d rpc = get_wallet_balance none d' rpc') :=
  ⟨fun _ _ _ _ => rfl, fun _ => rfl, rfl, fun _ _ => rfl, fun _ _ _ _ => rfl⟩

/-- Claim C10: with a configured trading client, `place_bet` interprets
`side` case-insensitively and without validation — the order side is
`BUY` exactly when the uppercased side string is `"BUY"`, and any other
string (for example `"HOLD"` or `""`) silently becomes a `SELL` order;
there is no invalid-side error path. -/
theorem place_bet_side_case_insensitive :
    (∀ token_id side price size : String,
      (betOrder token_id side price size).side
        = (if pyUpper side = "BUY" then Side.BUY else Side.SELL))
    ∧ (∀ (c : ClobClient) (token_id side price size : String),
        place_bet (some c) token_id side price size
          = match c.createAndPostOrder (betOrder token_id side price size) with
            | .ok order => Json.dumps (some 2) (.obj [("status", Json.str "placed"), ("order", order)])
            | .error e => errDump e)
    ∧ (betOrder "t" "buy" "0.5" "10").side = Side.BUY
    ∧ (betOrder "t" "Buy" "0.5" "10").side = Side.BUY
    ∧ (betOrder "t" "HOLD" "0.5" "10").side = Side.SELL
    ∧ (betOrder "t" "hold" "0.5" "10").side = Side.SELL
    ∧ (betOrder "t" "" "0.5" "10").side = Side.SELL :=
  ⟨fun _ _ _ _ => rfl, fun _ _ _ _ _ => rfl, by decide, by decide, by decide, by decide, by decide⟩

/-- Claim C3: whenever the outbound call fails (network error or
non-2xx status, and for the client-library tools a raising client
call), every tool returns the serialized JSON object with exactly one
key `"error"` holding a string — the final conjunct exhibits that
shape — and never propagates an exception. -/
theorem http_failure_error_sentinel (resp : HttpResult) (hfail : resp.isFailure = true) :
    (∀ limit : Nat, get_closing_soon_markets limit resp = errDump resp.failMsg)
    ∧ (∀ limit : Nat, search_markets limit resp = errDump resp.failMsg)
    ∧ get_market_details resp = errDump resp.failMsg
    ∧ get_order_book resp = errDump resp.failMsg
    ∧ get_price_history resp = errDump resp.failMsg
    ∧ (∀ (k a : String) (d : String → Except String String), k ≠ "" → d k = .ok a →
        get_wallet_balance (some k) d resp = errDump resp.failMsg)
    ∧ (∀ (c : ClobClient) (e : String), c.getPositions () = .error e →
        get_positions (some c) = errDump e)
    ∧ (∀ (c : ClobClient) (e token_id side price size : String),
        c.createAndPostOrder (betOrder token_id side price size) = .error e →
        place_bet (some c) token_id side price size = errDump e)
    ∧ (∀ (c : ClobClient) (e order_id : String), c.cancel order_id = .error e →
        cancel_order (some c) order_id = errDump e)
    ∧ (∀ (f : String → Nat → Except String (List ExaSource)) (q e : String) (n : Nat),
        f q n = .error e → exa_research (some f) q n = errDump e)
    ∧ (∀ msg : String, errDump msg = "\x7b\"error\": " ++ escapeJsonString msg ++ "\x7d") := by
  have hrs := raiseForStatus_failure resp hfail
  refine ⟨?_, ?_, ?_, ?_, ?_, ?_, ?_, ?_, ?_, ?_, ?_⟩
  · intro limit
    simp [get_closing_soon_markets, hrs, exceptBindErr, renderTool]
  · intro limit
    simp [search_markets, hrs, exceptBindErr, renderTool]
  · simp [get_market_details, hrs, exceptBindErr, renderTool]
  · simp [get_order_book, hrs, renderTool]
  · simp [get_price_history, hrs, renderTool]
  · intro k a d hk hd
    simp [get_wallet_balance, hk, hd, hrs, exceptBindOk, exceptBindErr]
  · intro c e hc
    simp [get_positions, hc]
  · intro c e token_id side price size hc
    simp [place_bet, hc]
  · intro c e order_id hc
    simp [cancel_order, hc]
  · intro f q e n hf
    simp [exa_research, hf]
  · intro msg
    have merge : ∀ x : String, "\x7b" ++ ("\"error\": " ++ x) = "\x7b\"error\": " ++ x :=
      fun x => by rw [← strAppendAssoc]; rfl
    simp [errDump, Json.dumps, dumpsVal, dumpsFields, joinSep, strAppendAssoc, merge,
      show escapeJsonString "error" = "\"error\"" from rfl]

/-- Claim C3 witness: a transport failure, a 500 status and a raising
client call each produce the single-key error sentinel. -/
theorem http_failure_error_sentinel_witness :
    get_order_book (.netError "connection refused") = errDump "connection refused"
    ∧ get_closing_soon_markets 15 (.response 500 Json.null) = errDump "HTTP 500"
    ∧ place_bet (some ⟨fun _ => Except.error "down", fun _ => Except.error "down",
          fun _ => Except.error "down"⟩) "tok" "BUY" "0.5" "10"
      = errDump "down" := by
  have h1 := http_failure_error_sentinel (.netError "connection refused") rfl
  have h2 := http_failure_error_sentinel (.response 500 Json.null) rfl
  exact ⟨h1.2.2.2.1, h2.1 15,
    h1.2.2.2.2.2.2.2.1 _ "down" "tok" "BUY" "0.5" "10" rfl⟩

/-- Claim C2 (counterexample): with an undecodable JSON-encoded
`outcomes` field, `get_market_details` does not substitute the
documented default for that field — it returns the `error` sentinel
object, which differs from the defaulted success payload. -/
theorem undecodable_field_counterexample :
    get_market_details (.response 200 (.obj [("outcomes", Json.str "oops")]))
      = errDump "json decode error"
    ∧ get_market_details (.response 200 (.obj [("outcomes", Json.str "oops")]))
      ≠ get_market_details (.response 200 (.obj [])) :=
  ⟨rfl, by decide⟩

/-- Claim C2 (amended): a missing upstream field degrades to its
documented default (empty outcome lists, `"0"` volume, empty strings,
`false` neg-risk) in both the market-detail and search tools, but a
present-yet-undecodable JSON-encoded field makes the whole tool return
the `error` sentinel object instead. -/
theorem missing_fields_default_undecodable_error :
    (∀ fs : List (String × Json),
      lookupField fs "description" = none →
      lookupField fs "outcomes" = none →
      lookupField fs "outcomePrices" = none →
      lookupField fs "clobTokenIds" = none →
      get_market_details (.response 200 (.obj fs))
        = Json.dumps (some 2) (.obj
            [("id", dictGet fs "id" (.str "")),
             ("question", dictGet fs "question" (.str "")),
             ("description", Json.str ""),
             ("outcomes", Json.arr []),
             ("outcome_prices", Json.arr []),
             ("volume", dictGet fs "volume" (.str "0")),
             ("liquidity", dictGet fs "liquidity" (.str "0")),
             ("end_date", dictGet fs "endDate" (.str "")),
             ("clob_token_ids", Json.arr []),
             ("neg_risk", dictGet fs "negRisk" (.bool false))]))
    ∧ (∀ (limit : Nat) (fs : List (String × Json)),
        lookupField fs "outcomes" = none →
        lookupField fs "outcomePrices" = none →
        search_markets limit (.response 200 (.arr [.obj [("markets", Json.arr [.obj fs])]]))
          = Json.dumps (some 2) (.arr (List.take limit
              [.obj [("id", dictGet fs "id" (.str "")),
                     ("question", dictGet fs "question" (.str "")),
                     ("outcomes", Json.arr []),
                     ("outcome_prices", Json.arr []),
                     ("volume", dictGet fs "volume" (.str "0")),
                     ("liquidity", dictGet fs "liquidity" (.str "0")),
                     ("end_date", dictGet fs "endDate" (.str ""))]])))
    ∧ (∀ (fs : List (String × Json)) (s : String),
        lookupField fs "description" = none →
        lookupField fs "outcomes" = some (.str s) →
        Json.parse s = none →
        get_market_details (.response 200 (.obj fs)) = errDump "json decode error") := by
  have hload : pyLoads (Json.str "[]") = Except.ok (Json.arr []) := rfl
  have hdesc : sliceDesc (Json.str "") = Except.ok (Json.str "") := rfl
  refine ⟨?_, ?_, ?_⟩
  · intro fs h1 h2 h3 h4
    simp [get_market_details, renderTool, raiseForStatus, asObj, dictGet, h1, h2, h3, h4,
      hload, hdesc, exceptBindOk]
  · intro limit fs h2 h3
    simp [search_markets, renderTool, raiseForStatus, asArr, asObj, collectSearch,
      eventMarkets, mapEntries, searchEntry, dictGet, h2, h3,
      show ∀ x : Json, lookupField [("markets", x)] "markets" = some x from fun x => rfl,
      hload, exceptBindOk]
  · intro fs s h1 h2 hp
    simp [get_market_details, renderTool, raiseForStatus, asObj, dictGet, h1, h2, hdesc,
      pyLoads, hp, exceptBindOk, exceptBindErr]

/-- Claim C2 (amended) witness: an entirely empty market object yields
every documented default, and an undecodable `outcomes` string yields
the error sentinel. -/
theorem missing_fields_default_undecodable_error_witness :
    get_market_details (.response 200 (.obj []))
      = Json.dumps (some 2) (.obj
          [("id", Json.str ""), ("question", Json.str ""), ("description", Json.str ""),
           ("outcomes", Json.arr []), ("outcome_prices", Json.arr []),
           ("volume", Json.str "0"), ("liquidity", Json.str "0"), ("end_date", Json.str ""),
           ("clob_token_ids", Json.arr []), ("neg_risk", Json.bool false)])
    ∧ get_market_details (.response 200 (.obj [("outcomes", Json.str "not decodable")]))
      = errDump "json decode error" := by
  have h := missing_fields_default_undecodable_error
  exact ⟨h.1 [] rfl rfl rfl rfl, h.2.2 _ "not decodable" rfl rfl rfl⟩

/-- Claim C8: the closing-soon scan implements the no-client-filtering
variant — the request itself asks the upstream for `volume24hr`
ordering, and on success the tool projects every upstream entry
positionally (same length, same order, `end_date` copied verbatim with
no date parsing) and truncates to at most `limit` entries. -/
theorem closing_soon_upstream_order (limit : Nat) (ms results : List Json)
    (h : mapEntries closingSoonEntry ms = .ok results) :
    get_closing_soon_markets limit (.response 200 (.arr ms))
      = Json.dumps (some 2) (.arr (results.take limit))
    ∧ results.length = ms.length
    ∧ (results.take limit).length ≤ limit
    ∧ (∀ (i : Nat) (h1 : i < ms.length) (h2 : i < results.length),
        closingSoonEntry (ms.get ⟨i, h1⟩) = .ok (results.get ⟨i, h2⟩))
    ∧ (∀ (mfs : List (String × Json)) (efs : List (String × Json)),
        closingSoonEntry (.obj mfs) = .ok (.obj efs) →
        lookupField efs "end_date" = some (dictGet mfs "endDate" (.str "")))
    ∧ lookupField (closingSoonRequestParams limit) "order" = some (.str "volume24hr") := by
  refine ⟨?_, mapEntries_ok_length _ _ _ h, ?_, mapEntries_ok_get _ _ _ h, ?_, rfl⟩
  · simp [get_closing_soon_markets, renderTool, raiseForStatus, asArr, h, exceptBindOk]
  · rw [List.length_take]
    exact Nat.min_le_left _ _
  · intro mfs efs he
    simp only [closingSoonEntry, asObj, exceptBindOk] at he
    cases ho : pyLoads (dictGet mfs "outcomes" (.str "[]")) with
    | error e => rw [ho, exceptBindErr] at he; cases he
    | ok outs =>
      rw [ho, exceptBindOk] at he
      cases hp : pyLoads (dictGet mfs "outcomePrices" (.str "[]")) with
      | error e => rw [hp, exceptBindErr] at he; cases he
      | ok prices =>
        rw [hp, exceptBindOk] at he
        cases he
        rfl

/-- Claim C8 witness: two upstream markets, `limit = 1` — the past
`endDate` of the first entry is kept, nothing is re-sorted, and exactly
one entry survives truncation. -/
theorem closing_soon_upstream_order_witness :
    get_closing_soon_markets 1 (.response 200 (.arr
        [.obj [("id", Json.str "a"), ("endDate", Json.str "2001-01-01T00:00:00Z")],
         .obj [("id", Json.str "b")]]))
      = Json.dumps (some 2) (.arr (List.take 1
          [.obj [("id", Json.str "a"), ("question", Json.str ""),
                 ("outcomes", Json.arr []), ("outcome_prices", Json.arr []),
                 ("volume", Json.str "0"), ("volume_24h", Json.str "0"),
                 ("liquidity", Json.str "0"),
                 ("end_date", Json.str "2001-01-01T00:00:00Z")],
           .obj [("id", Json.str "b"), ("question", Json.str ""),
                 ("outcomes", Json.arr []), ("outcome_prices", Json.arr []),
                 ("volume", Json.str "0"), ("volume_24h", Json.str "0"),
                 ("liquidity", Json.str "0"), ("end_date", Json.str "")]])) :=
  (closing_soon_upstream_order 1
    [.obj [("id", Json.str "a"), ("endDate", Json.str "2001-01-01T00:00:00Z")],
     .obj [("id", Json.str "b")]]
    [.obj [("id", Json.str "a"), ("question", Json.str ""),
           ("outcomes", Json.arr []), ("outcome_prices", Json.arr []),
           ("volume", Json.str "0"), ("volume_24h", Json.str "0"),
           ("liquidity", Json.str "0"),
           ("end_date", Json.str "2001-01-01T00:00:00Z")],
     .obj [("id", Json.str "b"), ("question", Json.str ""),
           ("outcomes", Json.arr []), ("outcome_prices", Json.arr []),
           ("volume", Json.str "0"), ("volume_24h", Json.str "0"),
           ("liquidity", Json.str "0"), ("end_date", Json.str "")]]
    rfl).1
